import Mathlib

/-
Verification development for the typed gRPC service-client layer of the
shop admin application.

The embedding follows the two source modules
  src/admin/src/infrastructure/grpc/delivery_client.py
  src/admin/src/infrastructure/grpc/oms_client.py
Python dataclasses become Lean structures, the enum mapping dicts become
association lists, protobuf messages become structures whose optional
sub-messages are `Option` fields (presence = `isSome`, matching the
`HasField` / truthiness checks the source performs and the way the
repository tests fake wire messages with `None` members), Python
exceptions become `Except` error values, and the lazily connected client
plus the module-level singleton registry become explicit state passing.
The gRPC transport itself is external to the repository, so each remote
invocation is parameterised by the outcome the transport delivers
(`RpcOutcome`): a successful response message or a status-coded error.
-/

namespace Shop

/-- Python truthiness of a string: the empty string is falsy. -/
def pyTruthyStr (s : String) : Bool := s ≠ ""

/-- Python truthiness of an `Optional[str]` value: `None` and `""` are falsy. -/
def pyTruthyOptStr : Option String → Bool
  | none => false
  | some s => pyTruthyStr s

/-- Domain timestamp (models Python `datetime`); only carried, never computed on. -/
structure PyDatetime where
  epochSeconds : Int
deriving DecidableEq, Repr

/-- Wire timestamp message (models `google.protobuf.Timestamp`). -/
structure ProtoTimestamp where
  epochSeconds : Int
deriving DecidableEq, Repr

/-- Models `Timestamp.ToDatetime()`: the wire instant becomes the same domain instant. -/
def ProtoTimestamp.ToDatetime (t : ProtoTimestamp) : PyDatetime :=
  ⟨t.epochSeconds⟩

/-- Python `dict.get(key, default)` over an association-list model of the dict. -/
def dictGetD {α β : Type} [BEq α] (d : List (α × β)) (k : α) (default : β) : β :=
  (d.lookup k).getD default

/-! ## Delivery client: enum mapping tables (delivery_client.py lines 122-171) -/

/-- `DeliveryClient.TRANSPORT_TYPES`. -/
def TRANSPORT_TYPES : List (Int × String) :=
  [(0, "UNSPECIFIED"), (1, "WALKING"), (2, "BICYCLE"), (3, "MOTORCYCLE"), (4, "CAR")]

/-- `DeliveryClient.TRANSPORT_TYPE_VALUES`. -/
def TRANSPORT_TYPE_VALUES : List (String × Int) :=
  [("UNSPECIFIED", 0), ("WALKING", 1), ("BICYCLE", 2), ("MOTORCYCLE", 3), ("CAR", 4)]

/-- `DeliveryClient.COURIER_STATUSES`. -/
def COURIER_STATUSES : List (Int × String) :=
  [(0, "UNSPECIFIED"), (1, "UNAVAILABLE"), (2, "FREE"), (3, "BUSY"), (4, "ARCHIVED")]

/-- `DeliveryClient.COURIER_STATUS_VALUES`. -/
def COURIER_STATUS_VALUES : List (String × Int) :=
  [("UNSPECIFIED", 0), ("UNAVAILABLE", 1), ("FREE", 2), ("BUSY", 3), ("ARCHIVED", 4)]

/-- `DeliveryClient.PACKAGE_STATUSES`. -/
def PACKAGE_STATUSES : List (Int × String) :=
  [(0, "UNSPECIFIED"), (1, "ACCEPTED"), (2, "IN_POOL"), (3, "ASSIGNED"),
   (4, "IN_TRANSIT"), (5, "DELIVERED"), (6, "NOT_DELIVERED"), (7, "REQUIRES_HANDLING")]

/-- `DeliveryClient.PRIORITIES`. -/
def PRIORITIES : List (Int × String) :=
  [(0, "UNSPECIFIED"), (1, "NORMAL"), (2, "URGENT")]

/-! ## Delivery client: domain value objects (delivery_client.py lines 18-101) -/

/-- Dataclass `WorkHours`. -/
structure WorkHours where
  start_time : String
  end_time : String
  work_days : List Int
deriving DecidableEq, Repr

/-- Dataclass `Location`. Python floats are carried as exact rationals; the
client only passes them through, never computes on them. -/
structure Location where
  latitude : Rat
  longitude : Rat
deriving DecidableEq, Repr

/-- Dataclass `Courier`. -/
structure Courier where
  courier_id : String
  name : String
  phone : String
  email : String
  transport_type : String
  max_distance_km : Rat
  status : String
  current_load : Int
  max_load : Int
  rating : Rat
  work_hours : Option WorkHours
  work_zone : String
  current_location : Option Location
  successful_deliveries : Int
  failed_deliveries : Int
  created_at : Option PyDatetime
  last_active_at : Option PyDatetime
deriving DecidableEq, Repr

/-- Dataclass `CourierPoolResult`. -/
structure CourierPoolResult where
  couriers : List Courier
  total_count : Int
  current_page : Int
  page_size : Int
  total_pages : Int
deriving DecidableEq, Repr

/-- Dataclass `Address`. -/
structure Address where
  street : String
  city : String
  postal_code : String
  country : String
  latitude : Rat
  longitude : Rat
deriving DecidableEq, Repr

/-- Dataclass `DeliveryRecord`. -/
structure DeliveryRecord where
  package_id : String
  order_id : String
  status : String
  pickup_address : Option Address
  delivery_address : Option Address
  assigned_at : Option PyDatetime
  delivered_at : Option PyDatetime
  priority : String
deriving DecidableEq, Repr

/-- Dataclass `CourierDeliveriesResult`. -/
structure CourierDeliveriesResult where
  deliveries : List DeliveryRecord
  total_count : Int
deriving DecidableEq, Repr

/-- The delivery client's exception taxonomy: `DeliveryServiceError` and its
subclass `CourierNotFoundError` (declared in the source, delivery_client.py
lines 103-112). -/
inductive DeliveryError
  | serviceError (msg : String)
  | courierNotFound (msg : String)
deriving DecidableEq, Repr

/-! ## Wire messages of the delivery service (fields as read by the client) -/

/-- Wire `WorkHours` sub-message. -/
structure ProtoWorkHours where
  start_time : String
  end_time : String
  work_days : List Int
deriving DecidableEq, Repr

/-- Wire location sub-message. -/
structure ProtoLocation where
  latitude : Rat
  longitude : Rat
deriving DecidableEq, Repr

/-- Wire `Courier` message. Optional sub-messages are `Option` fields:
presence is what `HasField` reports, and what the truthiness checks on
`work_hours` / `created_at` test in the repository's own test doubles
(which set those members to `None` when absent). -/
structure ProtoCourier where
  courier_id : String
  name : String
  phone : String
  email : String
  transport_type : Int
  max_distance_km : Rat
  status : Int
  current_load : Int
  max_load : Int
  rating : Rat
  work_hours : Option ProtoWorkHours
  work_zone : String
  current_location : Option ProtoLocation
  successful_deliveries : Int
  failed_deliveries : Int
  created_at : Option ProtoTimestamp
  last_active_at : Option ProtoTimestamp
deriving DecidableEq, Repr

/-- Embeds `DeliveryClient._proto_to_courier` (delivery_client.py lines 209-254):
the unknown-safe enum decodes via `dict.get(value, "UNSPECIFIED")`, optional
sub-messages mapped to `None` when absent, timestamps converted only when
present. Total: it can never raise. -/
def proto_to_courier (p : ProtoCourier) : Courier :=
  { courier_id := p.courier_id
    name := p.name
    phone := p.phone
    email := p.email
    transport_type := dictGetD TRANSPORT_TYPES p.transport_type "UNSPECIFIED"
    max_distance_km := p.max_distance_km
    status := dictGetD COURIER_STATUSES p.status "UNSPECIFIED"
    current_load := p.current_load
    max_load := p.max_load
    rating := p.rating
    work_hours := p.work_hours.map fun wh => ⟨wh.start_time, wh.end_time, wh.work_days⟩
    work_zone := p.work_zone
    current_location := p.current_location.map fun l => ⟨l.latitude, l.longitude⟩
    successful_deliveries := p.successful_deliveries
    failed_deliveries := p.failed_deliveries
    created_at := p.created_at.map ProtoTimestamp.ToDatetime
    last_active_at := p.last_active_at.map ProtoTimestamp.ToDatetime }

/-! ## Delivery client: state, lifecycle and call metadata -/

/-- Mutable state of a `DeliveryClient` object: `host`, `_channel`, `_stub`,
`_auth_token` (delivery_client.py lines 173-184). A connected channel is
modelled by `some target`; `stub` records whether `_stub` is set. -/
structure DeliveryClientState where
  host : String
  channel : Option String
  stub : Bool
  auth_token : Option String
deriving DecidableEq, Repr

/-- Default host: `getattr(settings, "DELIVERY_GRPC_HOST", "localhost:50051")`
with no `DELIVERY_GRPC_HOST` configured. -/
def DELIVERY_DEFAULT_HOST : String := "localhost:50051"

/-- Embeds `DeliveryClient.__init__`: `host or <settings default>` uses Python
truthiness, and construction performs no connection. -/
def DeliveryClient_init (host : Option String) (auth_token : Option String) :
    DeliveryClientState :=
  { host := if pyTruthyOptStr host then host.getD "" else DELIVERY_DEFAULT_HOST
    channel := none
    stub := false
    auth_token := auth_token }

/-- Embeds `DeliveryClient._get_metadata` (lines 186-190): a truthy
`_auth_token` yields one `authorization: Bearer <token>` entry. -/
def get_metadata (c : DeliveryClientState) : List (String × String) :=
  if pyTruthyOptStr c.auth_token then
    [("authorization", "Bearer " ++ c.auth_token.getD "")]
  else []

/-- Embeds `DeliveryClient._ensure_connected` (lines 192-207): a no-op when a
channel exists; otherwise opens the channel and loads the generated stub,
raising `DeliveryServiceError` when the generated bindings are unavailable
(`stubs_available` models whether `delivery_pb2_grpc` is importable). -/
def ensure_connected (stubs_available : Bool) (c : DeliveryClientState) :
    Except DeliveryError DeliveryClientState :=
  if c.channel.isSome then .ok c
  else if stubs_available then .ok { c with channel := some c.host, stub := true }
  else .error (.serviceError "gRPC stubs not generated. Run buf generate in admin directory.")

/-- Embeds `DeliveryClient.close` (lines 671-676): a truthy `_channel` is
closed and both `_channel` and `_stub` are reset; otherwise nothing happens. -/
def DeliveryClientState.close (c : DeliveryClientState) : DeliveryClientState :=
  if c.channel.isSome then { c with channel := none, stub := false } else c

/-- gRPC status codes of failed calls, as the client discriminates them. -/
inductive GrpcCode
  | notFound
  | internal
  | unavailable
  | deadlineExceeded
  | unauthenticated
deriving DecidableEq, Repr

/-- Outcome the external transport delivers for one remote invocation:
either the response message or an `RpcError` with a status code and the
text that ends up interpolated into the raised message. -/
inductive RpcOutcome (α : Type)
  | ok (resp : α)
  | rpcErr (code : GrpcCode) (msg : String)
deriving DecidableEq, Repr

/-! ## Delivery client: wire requests and the (request, metadata) pairs each
operation passes to its stub invocation. Optional request fields are set
only under the source's truthiness / `is not None` guards. -/

/-- Wire `GetCourierRequest`. -/
structure GetCourierRequest where
  courier_id : String
  include_location : Bool
deriving DecidableEq, Repr

/-- Wire `GetCourierDeliveriesRequest`. -/
structure GetCourierDeliveriesRequest where
  courier_id : String
  limit : Int
deriving DecidableEq, Repr

/-- Wire `Pagination` request sub-message. -/
structure PaginationReq where
  page : Int
  page_size : Int
deriving DecidableEq, Repr

/-- Wire `GetCourierPoolRequest`. -/
structure GetCourierPoolRequest where
  status_filter : List Int
  transport_type_filter : List Int
  zone_filter : String
  available_only : Bool
  include_location : Bool
  pagination : PaginationReq
deriving DecidableEq, Repr

/-- Wire `RegisterCourierRequest`; `push_token` is set only when truthy. -/
structure RegisterCourierRequest where
  name : String
  phone : String
  email : String
  transport_type : Int
  max_distance_km : Rat
  work_zone : String
  work_hours : ProtoWorkHours
  push_token : Option String
deriving DecidableEq, Repr

/-- Wire `ActivateCourierRequest`. -/
structure ActivateCourierRequest where
  courier_id : String
deriving DecidableEq, Repr

/-- Wire `DeactivateCourierRequest`; `reason` set only when truthy. -/
structure DeactivateCourierRequest where
  courier_id : String
  reason : Option String
deriving DecidableEq, Repr

/-- Wire `ArchiveCourierRequest`; `reason` set only when truthy. -/
structure ArchiveCourierRequest where
  courier_id : String
  reason : Option String
deriving DecidableEq, Repr

/-- Wire `UpdateContactInfoRequest`; each contact field is present on the wire
only when the corresponding argument is truthy. -/
structure UpdateContactInfoRequest where
  courier_id : String
  phone : Option String
  email : Option String
  push_token : Option String
deriving DecidableEq, Repr

/-- Wire `UpdateWorkScheduleRequest`. -/
structure UpdateWorkScheduleRequest where
  courier_id : String
  work_hours : Option ProtoWorkHours
  work_zone : Option String
  max_distance_km : Option Rat
deriving DecidableEq, Repr

/-- Wire `ChangeTransportTypeRequest`. -/
structure ChangeTransportTypeRequest where
  courier_id : String
  transport_type : Int
deriving DecidableEq, Repr

/-- The stub invocation of `get_courier` (lines 268-278): request plus
`metadata=self._get_metadata()`. -/
def get_courier_call (c : DeliveryClientState) (courier_id : String)
    (include_location : Bool) : GetCourierRequest × List (String × String) :=
  (⟨courier_id, include_location⟩, get_metadata c)

/-- The stub invocation of `get_courier_deliveries` (lines 298-308). -/
def get_courier_deliveries_call (c : DeliveryClientState) (courier_id : String)
    (limit : Int) : GetCourierDeliveriesRequest × List (String × String) :=
  (⟨courier_id, limit⟩, get_metadata c)

/-- The stub invocation of `get_courier_pool` (lines 390-418): status and
transport filter tokens are encoded through the mapping tables, unrecognised
tokens silently dropped; `zone_filter or ""` uses Python truthiness. -/
def get_courier_pool_call (c : DeliveryClientState)
    (status_filter transport_type_filter : Option (List String))
    (zone_filter : Option String) (available_only include_location : Bool)
    (page page_size : Int) : GetCourierPoolRequest × List (String × String) :=
  let status_values := (status_filter.getD []).filterMap
    fun s => COURIER_STATUS_VALUES.lookup s
  let transport_values := (transport_type_filter.getD []).filterMap
    fun s => TRANSPORT_TYPE_VALUES.lookup s
  ({ status_filter := status_values
     transport_type_filter := transport_values
     zone_filter := if pyTruthyOptStr zone_filter then zone_filter.getD "" else ""
     available_only := available_only
     include_location := include_location
     pagination := ⟨page, page_size⟩ }, get_metadata c)

/-- The stub invocation of `register_courier` (lines 458-482): transport type
encoded via `TRANSPORT_TYPE_VALUES.get(transport_type, 0)`, the work-hours
sub-message copied field by field, `push_token` set only when truthy. -/
def register_courier_call (c : DeliveryClientState) (name phone email : String)
    (transport_type : String) (max_distance_km : Rat) (work_zone : String)
    (work_hours : WorkHours) (push_token : Option String) :
    RegisterCourierRequest × List (String × String) :=
  ({ name := name
     phone := phone
     email := email
     transport_type := dictGetD TRANSPORT_TYPE_VALUES transport_type 0
     max_distance_km := max_distance_km
     work_zone := work_zone
     work_hours := ⟨work_hours.start_time, work_hours.end_time, work_hours.work_days⟩
     push_token := if pyTruthyOptStr push_token then push_token else none },
   get_metadata c)

/-- The stub invocation of `activate_courier` (lines 497-504). -/
def activate_courier_call (c : DeliveryClientState) (courier_id : String) :
    ActivateCourierRequest × List (String × String) :=
  (⟨courier_id⟩, get_metadata c)

/-- The stub invocation of `deactivate_courier` (lines 522-531). -/
def deactivate_courier_call (c : DeliveryClientState) (courier_id : String)
    (reason : Option String) : DeactivateCourierRequest × List (String × String) :=
  (⟨courier_id, if pyTruthyOptStr reason then reason else none⟩, get_metadata c)

/-- The stub invocation of `archive_courier` (lines 547-556). -/
def archive_courier_call (c : DeliveryClientState) (courier_id : String)
    (reason : Option String) : ArchiveCourierRequest × List (String × String) :=
  (⟨courier_id, if pyTruthyOptStr reason then reason else none⟩, get_metadata c)

/-- The stub invocation of `update_contact_info` (lines 580-593): each of
`phone`, `email`, `push_token` is written onto the request only when truthy,
so unset arguments stay absent from the wire message. -/
def update_contact_info_call (c : DeliveryClientState) (courier_id : String)
    (phone email push_token : Option String) :
    UpdateContactInfoRequest × List (String × String) :=
  ({ courier_id := courier_id
     phone := if pyTruthyOptStr phone then phone else none
     email := if pyTruthyOptStr email then email else none
     push_token := if pyTruthyOptStr push_token then push_token else none },
   get_metadata c)

/-- The stub invocation of `update_work_schedule` (lines 617-637): work hours
and zone guarded by truthiness, `max_distance_km` by `is not None`. -/
def update_work_schedule_call (c : DeliveryClientState) (courier_id : String)
    (work_hours : Option WorkHours) (work_zone : Option String)
    (max_distance_km : Option Rat) :
    UpdateWorkScheduleRequest × List (String × String) :=
  ({ courier_id := courier_id
     work_hours := work_hours.map fun wh =>
       ⟨wh.start_time, wh.end_time, wh.work_days⟩
     work_zone := if pyTruthyOptStr work_zone then work_zone else none
     max_distance_km := max_distance_km },
   get_metadata c)

/-- The stub invocation of `change_transport_type` (lines 653-665). -/
def change_transport_type_call (c : DeliveryClientState) (courier_id : String)
    (transport_type : String) : ChangeTransportTypeRequest × List (String × String) :=
  (⟨courier_id, dictGetD TRANSPORT_TYPE_VALUES transport_type 0⟩, get_metadata c)

/-! ## Delivery client: wire responses and operation behaviour -/

/-- Wire `GetCourierResponse`. -/
structure GetCourierResponse where
  courier : ProtoCourier
deriving DecidableEq, Repr

/-- Wire address sub-message (read field by field in the source). -/
structure ProtoAddress where
  street : String
  city : String
  postal_code : String
  country : String
  latitude : Rat
  longitude : Rat
deriving DecidableEq, Repr

/-- Conversion of a present wire address, as inlined at each use site. -/
def proto_to_address (a : ProtoAddress) : Address :=
  ⟨a.street, a.city, a.postal_code, a.country, a.latitude, a.longitude⟩

/-- Wire delivery record message inside `GetCourierDeliveriesResponse`. -/
structure ProtoDelivery where
  package_id : String
  order_id : String
  status : Int
  pickup_address : Option ProtoAddress
  delivery_address : Option ProtoAddress
  assigned_at : Option ProtoTimestamp
  delivered_at : Option ProtoTimestamp
  priority : Int
deriving DecidableEq, Repr

/-- Wire `GetCourierDeliveriesResponse`. -/
structure GetCourierDeliveriesResponse where
  deliveries : List ProtoDelivery
  total_count : Int
deriving DecidableEq, Repr

/-- Wire pagination metadata of a response. -/
structure ProtoPagination where
  current_page : Int
  page_size : Int
  total_pages : Int
deriving DecidableEq, Repr

/-- Wire `GetCourierPoolResponse`; `pagination` may be absent. -/
structure GetCourierPoolResponse where
  couriers : List ProtoCourier
  total_count : Int
  pagination : Option ProtoPagination
deriving DecidableEq, Repr

/-- The per-record conversion inlined in `get_courier_deliveries`
(lines 309-354): addresses and timestamps only when present, enums decoded
unknown-safe. -/
def proto_to_delivery_record (d : ProtoDelivery) : DeliveryRecord :=
  { package_id := d.package_id
    order_id := d.order_id
    status := dictGetD PACKAGE_STATUSES d.status "UNSPECIFIED"
    pickup_address := d.pickup_address.map proto_to_address
    delivery_address := d.delivery_address.map proto_to_address
    assigned_at := d.assigned_at.map ProtoTimestamp.ToDatetime
    delivered_at := d.delivered_at.map ProtoTimestamp.ToDatetime
    priority := dictGetD PRIORITIES d.priority "UNSPECIFIED" }

/-- Embeds `DeliveryClient.get_courier` (lines 256-284): connect lazily, then
classify the transport outcome — `NOT_FOUND` becomes `None`, any other
`RpcError` is re-raised as `DeliveryServiceError`, success is translated. -/
def get_courier (stubs_available : Bool) (c : DeliveryClientState)
    (courier_id : String) (include_location : Bool)
    (transport : RpcOutcome GetCourierResponse) :
    Except DeliveryError (DeliveryClientState × Option Courier) := do
  let _req := GetCourierRequest.mk courier_id include_location
  let c ← ensure_connected stubs_available c
  match transport with
  | .ok resp => .ok (c, some (proto_to_courier resp.courier))
  | .rpcErr code msg =>
      if code = .notFound then .ok (c, none)
      else .error (.serviceError ("Failed to get courier: " ++ msg))

/-- Embeds `DeliveryClient.get_courier_deliveries` (lines 286-364): on
`NOT_FOUND` the call swallows the error and returns an empty successful
result; other `RpcError`s are re-raised as `DeliveryServiceError`. -/
def get_courier_deliveries (stubs_available : Bool) (c : DeliveryClientState)
    (courier_id : String) (limit : Int)
    (transport : RpcOutcome GetCourierDeliveriesResponse) :
    Except DeliveryError (DeliveryClientState × CourierDeliveriesResult) := do
  let _req := GetCourierDeliveriesRequest.mk courier_id limit
  let c ← ensure_connected stubs_available c
  match transport with
  | .ok resp =>
      .ok (c, ⟨resp.deliveries.map proto_to_delivery_record, resp.total_count⟩)
  | .rpcErr code msg =>
      if code = .notFound then .ok (c, ⟨[], 0⟩)
      else .error (.serviceError ("Failed to get courier deliveries: " ++ msg))

/-- Embeds the response handling of `DeliveryClient.get_courier_pool`
(lines 417-430): pagination fields echo the response when its pagination
metadata is present, otherwise the request's `page` and `page_size` with
`total_pages = 1`; any `RpcError` is re-raised as `DeliveryServiceError`. -/
def get_courier_pool (stubs_available : Bool) (c : DeliveryClientState)
    (page page_size : Int) (transport : RpcOutcome GetCourierPoolResponse) :
    Except DeliveryError (DeliveryClientState × CourierPoolResult) := do
  let c ← ensure_connected stubs_available c
  match transport with
  | .ok resp =>
      .ok (c,
        { couriers := resp.couriers.map proto_to_courier
          total_count := resp.total_count
          current_page := match resp.pagination with
            | some p => p.current_page
            | none => page
          page_size := match resp.pagination with
            | some p => p.page_size
            | none => page_size
          total_pages := match resp.pagination with
            | some p => p.total_pages
            | none => 1 })
  | .rpcErr _ msg => .error (.serviceError ("Failed to get courier pool: " ++ msg))

/-! ## Delivery client registry (delivery_client.py lines 679-701) -/

/-- The module-level singleton cell `_client` plus a fresh-object counter that
models Python object identity: every `DeliveryClient(...)` construction yields
a new identity, so two states with equal fields are still distinguishable. -/
structure DeliveryRegistry where
  next_obj : Nat
  singleton : Option (Nat × DeliveryClientState)
deriving DecidableEq, Repr

/-- Registry before any access: `_client = None`. -/
def delivery_registry_init : DeliveryRegistry := ⟨0, none⟩

/-- Embeds `get_delivery_client` (lines 683-701): a truthy token constructs a
fresh client carrying the token and leaves the singleton untouched; otherwise
the singleton is created on first access and returned thereafter. Returns the
updated registry, the returned object's identity, and its state. -/
def get_delivery_client (auth_token : Option String) (r : DeliveryRegistry) :
    DeliveryRegistry × Nat × DeliveryClientState :=
  if pyTruthyOptStr auth_token then
    ({ r with next_obj := r.next_obj + 1 }, r.next_obj,
     DeliveryClient_init none auth_token)
  else
    match r.singleton with
    | some (oid, c) => (r, oid, c)
    | none =>
        let c := DeliveryClient_init none none
        (⟨r.next_obj + 1, some (r.next_obj, c)⟩, r.next_obj, c)

/-- The caller sequence `get_delivery_client().close()` as it acts on the
registry: `close` mutates the shared object in place, and nothing in the
source ever assigns `_client = None`, so the singleton cell keeps referencing
the same — now closed — object. -/
def delivery_registry_close_singleton (r : DeliveryRegistry) : DeliveryRegistry :=
  match r.singleton with
  | some (oid, c) => { r with singleton := some (oid, c.close) }
  | none => r

/-! ## OMS client (oms_client.py) -/

/-- The `OrderStatus` IntEnum (oms_client.py lines 20-27). -/
inductive OrderStatus
  | UNSPECIFIED
  | PENDING
  | PROCESSING
  | COMPLETED
  | CANCELLED
deriving DecidableEq, Repr

/-- `int(status)` on an `OrderStatus` member. -/
def OrderStatus.toInt : OrderStatus → Int
  | .UNSPECIFIED => 0
  | .PENDING => 1
  | .PROCESSING => 2
  | .COMPLETED => 3
  | .CANCELLED => 4

/-- The IntEnum call `OrderStatus(n)`: a member for the five mapped values,
and a `ValueError` for every other integer — Python enum lookup by value
raises, it has no default. -/
def OrderStatus.ofInt (n : Int) : Except String OrderStatus :=
  if n = 0 then .ok .UNSPECIFIED
  else if n = 1 then .ok .PENDING
  else if n = 2 then .ok .PROCESSING
  else if n = 3 then .ok .COMPLETED
  else if n = 4 then .ok .CANCELLED
  else .error (toString n ++ " is not a valid OrderStatus")

/-- `ORDER_STATUS_NAMES` (lines 30-36). -/
def ORDER_STATUS_NAMES : List (OrderStatus × String) :=
  [(.UNSPECIFIED, "Unspecified"), (.PENDING, "Pending"), (.PROCESSING, "Processing"),
   (.COMPLETED, "Completed"), (.CANCELLED, "Cancelled")]

/-- Modelled from the spec: the generated OMS bindings
(`order_rpc_pb2` / `model_pb2`, produced by buf) are not in the repository.
A wire monetary value reaches the client as `proto_item.price`, and the
client converts it with `Decimal(str(price))`; `str` on such a value prints
a finite decimal literal. The wire price is therefore modelled by that
literal: its integer-part digits and its fractional-part digits
(most significant first). -/
structure WirePrice where
  int_digits : List Nat
  frac_digits : List Nat
deriving DecidableEq, Repr

/-- Value of a digit sequence read most-significant-first. -/
def digitsToNat (ds : List Nat) : Nat :=
  ds.foldl (fun acc d => acc * 10 + d) 0

/-- Python `Decimal`: an exact scaled integer `digitsVal / 10 ^ scale`; no
binary floating point representation is involved. -/
structure PyDecimal where
  digitsVal : Nat
  scale : Nat
deriving DecidableEq, Repr

/-- The exact rational a `Decimal` denotes. -/
def PyDecimal.toRat (d : PyDecimal) : Rat :=
  (d.digitsVal : Rat) / (10 : Rat) ^ d.scale

/-- `Decimal(str(price))`: the decimal literal `str` prints is parsed back
digit for digit, giving the scaled integer whose digits are the literal's
digits and whose scale is the number of fractional digits. -/
def Decimal_of_str (w : WirePrice) : PyDecimal :=
  ⟨digitsToNat (w.int_digits ++ w.frac_digits), w.frac_digits.length⟩

/-- Dataclass `OrderItem` (lines 39-45): `price` has type `Decimal`. -/
structure OrderItem where
  good_id : String
  quantity : Int
  price : PyDecimal
deriving DecidableEq, Repr

/-- Dataclass `DeliveryAddress` (lines 48-57). -/
structure DeliveryAddress where
  street : String
  city : String
  postal_code : String
  country : String
  latitude : Rat
  longitude : Rat
deriving DecidableEq, Repr

/-- Dataclass `DeliveryPeriod` (lines 60-65). -/
structure DeliveryPeriod where
  start_time : Option PyDatetime
  end_time : Option PyDatetime
deriving DecidableEq, Repr

/-- Dataclass `DeliveryInfo` (lines 68-75); `priority` stays a raw int here. -/
structure DeliveryInfo where
  pickup_address : Option DeliveryAddress
  delivery_address : Option DeliveryAddress
  delivery_period : Option DeliveryPeriod
  priority : Int
deriving DecidableEq, Repr

/-- Dataclass `Order` (lines 78-88). -/
structure Order where
  order_id : String
  customer_id : String
  items : List OrderItem
  status : OrderStatus
  created_at : Option PyDatetime
  updated_at : Option PyDatetime
  delivery_info : Option DeliveryInfo
deriving DecidableEq, Repr

/-- Property `Order.status_name` (lines 90-93). -/
def Order.status_name (o : Order) : String :=
  dictGetD ORDER_STATUS_NAMES o.status "Unknown"

/-- Dataclass `OrderListResult` (lines 106-114). -/
structure OrderListResult where
  orders : List Order
  total_count : Int
  current_page : Int
  page_size : Int
  total_pages : Int
deriving DecidableEq, Repr

/-- The OMS failure modes observable to callers: `OmsServiceError`, its
subclass `OrderNotFoundError`, a raw `ValueError` escaping translation
(it is not caught by the `except grpc.RpcError` clauses), and a raw
`ImportError` from loading the generated stubs (the OMS `_ensure_connected`
has no try/except around its import). -/
inductive OmsError
  | serviceError (msg : String)
  | orderNotFound (msg : String)
  | valueError (msg : String)
  | importError (msg : String)
deriving DecidableEq, Repr

/-- Mutable state of an `OmsClient` object (lines 132-140). -/
structure OmsClientState where
  host : String
  channel : Option String
  stub : Bool
deriving DecidableEq, Repr

/-- Default host: `getattr(settings, "OMS_GRPC_HOST", "localhost:50052")`
with no `OMS_GRPC_HOST` configured. -/
def OMS_DEFAULT_HOST : String := "localhost:50052"

/-- Embeds `OmsClient.__init__`: no connection at construction. -/
def OmsClient_init (host : Option String) : OmsClientState :=
  { host := if pyTruthyOptStr host then host.getD "" else OMS_DEFAULT_HOST
    channel := none
    stub := false }

/-- Embeds `OmsClient._ensure_connected` (lines 142-149): unlike the delivery
client, the stub import is not guarded, so an unavailable binding escapes as
a raw `ImportError`. -/
def ensure_oms_connected (stubs_available : Bool) (c : OmsClientState) :
    Except OmsError OmsClientState :=
  if c.channel.isSome then .ok c
  else if stubs_available then .ok { c with channel := some c.host, stub := true }
  else .error (.importError "No module named order_rpc_pb2_grpc")

/-- Embeds `OmsClient.close` (lines 313-318). -/
def OmsClientState.close (c : OmsClientState) : OmsClientState :=
  if c.channel.isSome then { c with channel := none, stub := false } else c

/-- Wire order item message; `id`, `quantity`, `price`. -/
structure ProtoOrderItem where
  id : String
  quantity : Int
  price : WirePrice
deriving DecidableEq, Repr

/-- Wire delivery period sub-message. -/
structure ProtoDeliveryPeriod where
  start_time : Option ProtoTimestamp
  end_time : Option ProtoTimestamp
deriving DecidableEq, Repr

/-- Wire delivery info sub-message. -/
structure ProtoDeliveryInfo where
  pickup_address : Option ProtoAddress
  delivery_address : Option ProtoAddress
  delivery_period : Option ProtoDeliveryPeriod
  priority : Int
deriving DecidableEq, Repr

/-- Wire order message as read by `_proto_to_order`. -/
structure ProtoOrder where
  id : String
  customer_id : String
  items : List ProtoOrderItem
  status : Int
  created_at : Option ProtoTimestamp
  updated_at : Option ProtoTimestamp
  delivery_info : Option ProtoDeliveryInfo
deriving DecidableEq, Repr

/-- The per-item conversion inlined in `_proto_to_order` (lines 153-161):
`OrderItem(good_id=item.id, quantity=item.quantity, price=Decimal(str(item.price)))`. -/
def proto_to_order_item (it : ProtoOrderItem) : OrderItem :=
  { good_id := it.id
    quantity := it.quantity
    price := Decimal_of_str it.price }

/-- The wire delivery-address conversion inlined in `_proto_to_order`. -/
def proto_to_delivery_address (a : ProtoAddress) : DeliveryAddress :=
  ⟨a.street, a.city, a.postal_code, a.country, a.latitude, a.longitude⟩

/-- The delivery-info conversion inlined in `_proto_to_order` (lines 163-200):
every sub-message only when present. -/
def proto_to_delivery_info (di : ProtoDeliveryInfo) : DeliveryInfo :=
  { pickup_address := di.pickup_address.map proto_to_delivery_address
    delivery_address := di.delivery_address.map proto_to_delivery_address
    delivery_period := di.delivery_period.map fun dp =>
      ⟨dp.start_time.map ProtoTimestamp.ToDatetime,
       dp.end_time.map ProtoTimestamp.ToDatetime⟩
    priority := di.priority }

/-- Embeds `OmsClient._proto_to_order` (lines 151-218). The only fallible
step is `OrderStatus(proto_order.status)`, which raises `ValueError` for a
wire integer outside the five mapped values. -/
def proto_to_order (p : ProtoOrder) : Except String Order := do
  let status ← OrderStatus.ofInt p.status
  .ok { order_id := p.id
        customer_id := p.customer_id
        items := p.items.map proto_to_order_item
        status := status
        created_at := p.created_at.map ProtoTimestamp.ToDatetime
        updated_at := p.updated_at.map ProtoTimestamp.ToDatetime
        delivery_info := p.delivery_info.map proto_to_delivery_info }

/-- Wire `GetResponse` of the OMS `Get` RPC. -/
structure GetOrderResponse where
  order : ProtoOrder
deriving DecidableEq, Repr

/-- Wire `ListResponse` of the OMS `List` RPC; `pagination` may be absent. -/
structure ListOrdersResponse where
  orders : List ProtoOrder
  total_count : Int
  pagination : Option ProtoPagination
deriving DecidableEq, Repr

/-- Embeds `OmsClient.get_order` (lines 220-242): `NOT_FOUND` becomes `None`,
any other `RpcError` is re-raised as `OmsServiceError`, and on a successful
response `_proto_to_order` runs inside the `try` block whose `except` clause
only catches `grpc.RpcError`, so a translation `ValueError` escapes raw. -/
def get_order (stubs_available : Bool) (c : OmsClientState) (order_id : String)
    (transport : RpcOutcome GetOrderResponse) :
    Except OmsError (OmsClientState × Option Order) := do
  let _req := order_id
  let c ← ensure_oms_connected stubs_available c
  match transport with
  | .ok resp =>
      match proto_to_order resp.order with
      | .ok o => .ok (c, some o)
      | .error m => .error (.valueError m)
  | .rpcErr code msg =>
      if code = .notFound then .ok (c, none)
      else .error (.serviceError ("Failed to get order: " ++ msg))

/-- Wire `ListRequest` as built by `list_orders` (lines 266-272). -/
structure ListOrdersRequest where
  customer_id : String
  status_filter : List Int
  pagination : PaginationReq
deriving DecidableEq, Repr

/-- The request `list_orders` builds: `customer_id or ""`, the status filter
encoded via `int(s)`, and the pagination passed through. -/
def list_orders_request (customer_id : Option String)
    (status_filter : Option (List OrderStatus)) (page page_size : Int) :
    ListOrdersRequest :=
  { customer_id := if pyTruthyOptStr customer_id then customer_id.getD "" else ""
    status_filter := (status_filter.getD []).map OrderStatus.toInt
    pagination := ⟨page, page_size⟩ }

/-- Embeds the response handling of `OmsClient.list_orders` (lines 274-287):
the same pagination echo pattern as the courier pool, every order translated
by `_proto_to_order` (a list comprehension, so a single bad status makes the
whole call raise `ValueError`). -/
def list_orders (stubs_available : Bool) (c : OmsClientState)
    (page page_size : Int) (transport : RpcOutcome ListOrdersResponse) :
    Except OmsError (OmsClientState × OrderListResult) := do
  let c ← ensure_oms_connected stubs_available c
  match transport with
  | .ok resp =>
      match resp.orders.mapM proto_to_order with
      | .error m => .error (.valueError m)
      | .ok orders =>
          .ok (c,
            { orders := orders
              total_count := resp.total_count
              current_page := match resp.pagination with
                | some p => p.current_page
                | none => page
              page_size := match resp.pagination with
                | some p => p.page_size
                | none => page_size
              total_pages := match resp.pagination with
                | some p => p.total_pages
                | none => 1 })
  | .rpcErr _ msg => .error (.serviceError ("Failed to list orders: " ++ msg))

/-- Embeds `OmsClient.cancel_order` (lines 289-311): success returns `True`;
`NOT_FOUND` raises the distinct `OrderNotFoundError`; every other `RpcError`
raises the generic `OmsServiceError`. -/
def cancel_order (stubs_available : Bool) (c : OmsClientState)
    (order_id : String) (transport : RpcOutcome Unit) :
    Except OmsError (OmsClientState × Bool) := do
  let c ← ensure_oms_connected stubs_available c
  match transport with
  | .ok _ => .ok (c, true)
  | .rpcErr code msg =>
      if code = .notFound then .error (.orderNotFound ("Order not found: " ++ order_id))
      else .error (.serviceError ("Failed to cancel order: " ++ msg))

/-- The OMS module-level singleton cell `_client` (lines 321-334), with the
same object-identity counter as the delivery registry. -/
structure OmsRegistry where
  next_obj : Nat
  singleton : Option (Nat × OmsClientState)
deriving DecidableEq, Repr

/-- Registry before any access. -/
def oms_registry_init : OmsRegistry := ⟨0, none⟩

/-- Embeds `get_oms_client` (lines 325-334): created on first access,
returned unchanged thereafter. -/
def get_oms_client (r : OmsRegistry) : OmsRegistry × Nat × OmsClientState :=
  match r.singleton with
  | some (oid, c) => (r, oid, c)
  | none =>
      let c := OmsClient_init none
      (⟨r.next_obj + 1, some (r.next_obj, c)⟩, r.next_obj, c)

/-- The caller sequence `get_oms_client().close()` acting on the registry:
the singleton keeps referencing the closed object, nothing resets `_client`. -/
def oms_registry_close_singleton (r : OmsRegistry) : OmsRegistry :=
  match r.singleton with
  | some (oid, c) => { r with singleton := some (oid, c.close) }
  | none => r

/-! ## Spec-modelled fake backend for contact-info patches -/

/-- Modelled from the spec: the repository contains no server; the spec's
partial-update scenario is checked against a fake backend that stores a
courier's contact fields and applies exactly the fields present on an
`UpdateContactInfoRequest`, leaving absent fields untouched. -/
structure StoredContactInfo where
  phone : String
  email : String
  push_token : String
deriving DecidableEq, Repr

/-- Modelled from the spec: field-presence patch application — a field on the
stored record changes only when the request carries that field. -/
def apply_contact_patch (stored : StoredContactInfo)
    (req : UpdateContactInfoRequest) : StoredContactInfo :=
  { phone := req.phone.getD stored.phone
    email := req.email.getD stored.email
    push_token := req.push_token.getD stored.push_token }

/-! ## Helper lemmas shared across the claims -/

/-- The state `_ensure_connected` leaves behind when the stubs are importable. -/
def delivery_ensured (c : DeliveryClientState) : DeliveryClientState :=
  if c.channel.isSome then c else { c with channel := some c.host, stub := true }

/-- With the generated stubs importable, `_ensure_connected` always succeeds. -/
lemma ensure_connected_true (c : DeliveryClientState) :
    ensure_connected true c = .ok (delivery_ensured c) := by
  unfold ensure_connected delivery_ensured
  split <;> rfl

/-- The state the OMS `_ensure_connected` leaves behind. -/
def oms_ensured (c : OmsClientState) : OmsClientState :=
  if c.channel.isSome then c else { c with channel := some c.host, stub := true }

/-- With the generated stubs importable, the OMS `_ensure_connected` succeeds. -/
lemma ensure_oms_connected_true (c : OmsClientState) :
    ensure_oms_connected true c = .ok (oms_ensured c) := by
  unfold ensure_oms_connected oms_ensured
  split <;> rfl

/-- Folding further digits onto an accumulator shifts the accumulator by one
decimal place per digit. -/
lemma foldl_digits_shift (b : List Nat) (acc : Nat) :
    b.foldl (fun a d => a * 10 + d) acc
      = acc * 10 ^ b.length + b.foldl (fun a d => a * 10 + d) 0 := by
  induction b generalizing acc with
  | nil => simp
  | cons d t ih =>
      simp only [List.foldl_cons, List.length_cons, Nat.zero_mul, Nat.zero_add]
      rw [ih (acc * 10 + d), ih d]
      ring

/-- The digits of a concatenation: the integer digits shifted past the
fractional digits plus the fractional digits. -/
lemma digitsToNat_append (a b : List Nat) :
    digitsToNat (a ++ b) = digitsToNat a * 10 ^ b.length + digitsToNat b := by
  unfold digitsToNat
  rw [List.foldl_append]
  exact foldl_digits_shift b _

/-- `Decimal(str(price))` denotes exactly the decimal value of the printed
literal: integer part plus fractional part over the matching power of ten.
No rounding happens anywhere in the conversion. -/
lemma Decimal_of_str_exact (w : WirePrice) :
    (Decimal_of_str w).toRat
      = (digitsToNat w.int_digits : Rat)
        + (digitsToNat w.frac_digits : Rat) / (10 : Rat) ^ w.frac_digits.length := by
  unfold Decimal_of_str PyDecimal.toRat
  rw [digitsToNat_append]
  have hpow : ((10 : Rat) ^ w.frac_digits.length) ≠ 0 := by positivity
  field_simp

/-! ## Claims -/

/-- C1 counterexample. The claim asserts that decoding an unknown wire enum
integer never raises for every enumeration the clients decode, including the
OMS order status. It is false there: `_proto_to_order` calls
`OrderStatus(proto_order.status)`, and the IntEnum constructor raises
`ValueError` on the unmapped wire integer 5, so decoding this response
raises instead of yielding a sentinel. -/
theorem C1_counterexample :
    proto_to_order
      { id := "ord-1", customer_id := "cust-1", items := [], status := 5,
        created_at := none, updated_at := none, delivery_info := none }
      = Except.error "5 is not a valid OrderStatus" := by
  rfl

/-- C1 (amended): for the four enumerations the delivery client decodes
(transport type, courier status, package status, priority), every wire
integer absent from the mapping table decodes to the sentinel "UNSPECIFIED"
and the (total) conversion functions never raise; the OMS order-status
decode, by contrast, raises `ValueError` for every integer outside the five
mapped values instead of returning a sentinel. -/
theorem C1_unknown_enum_decode (n : Int) :
    (TRANSPORT_TYPES.lookup n = none →
      dictGetD TRANSPORT_TYPES n "UNSPECIFIED" = "UNSPECIFIED")
  ∧ (COURIER_STATUSES.lookup n = none →
      dictGetD COURIER_STATUSES n "UNSPECIFIED" = "UNSPECIFIED")
  ∧ (PACKAGE_STATUSES.lookup n = none →
      dictGetD PACKAGE_STATUSES n "UNSPECIFIED" = "UNSPECIFIED")
  ∧ (PRIORITIES.lookup n = none →
      dictGetD PRIORITIES n "UNSPECIFIED" = "UNSPECIFIED")
  ∧ (∀ p : ProtoCourier, TRANSPORT_TYPES.lookup p.transport_type = none →
      (proto_to_courier p).transport_type = "UNSPECIFIED")
  ∧ (∀ p : ProtoCourier, COURIER_STATUSES.lookup p.status = none →
      (proto_to_courier p).status = "UNSPECIFIED")
  ∧ (∀ d : ProtoDelivery, PACKAGE_STATUSES.lookup d.status = none →
      (proto_to_delivery_record d).status = "UNSPECIFIED")
  ∧ (∀ d : ProtoDelivery, PRIORITIES.lookup d.priority = none →
      (proto_to_delivery_record d).priority = "UNSPECIFIED")
  ∧ (¬(n = 0 ∨ n = 1 ∨ n = 2 ∨ n = 3 ∨ n = 4) →
      OrderStatus.ofInt n = .error (toString n ++ " is not a valid OrderStatus")) := by
  refine ⟨?_, ?_, ?_, ?_, ?_, ?_, ?_, ?_, ?_⟩
  · intro h; simp [dictGetD, h]
  · intro h; simp [dictGetD, h]
  · intro h; simp [dictGetD, h]
  · intro h; simp [dictGetD, h]
  · intro p h; simp [proto_to_courier, dictGetD, h]
  · intro p h; simp [proto_to_courier, dictGetD, h]
  · intro d h; simp [proto_to_delivery_record, dictGetD, h]
  · intro d h; simp [proto_to_delivery_record, dictGetD, h]
  · intro h
    push_neg at h
    obtain ⟨h0, h1, h2, h3, h4⟩ := h
    simp [OrderStatus.ofInt, h0, h1, h2, h3, h4]

/-- A wire courier carrying only unmapped enum integers, for the C1 witness. -/
def c1_proto_courier : ProtoCourier :=
  { courier_id := "cr-1", name := "N", phone := "+49", email := "n@x.de",
    transport_type := 99, max_distance_km := 10, status := 99,
    current_load := 0, max_load := 1, rating := 5,
    work_hours := none, work_zone := "z", current_location := none,
    successful_deliveries := 0, failed_deliveries := 0,
    created_at := none, last_active_at := none }

/-- A wire delivery record carrying only unmapped enum integers. -/
def c1_proto_delivery : ProtoDelivery :=
  { package_id := "p-1", order_id := "o-1", status := 99,
    pickup_address := none, delivery_address := none,
    assigned_at := none, delivered_at := none, priority := 99 }

/-- C1 witness: the amended statement evaluated at the unmapped wire value 99
and at concrete wire messages carrying it. -/
theorem C1_unknown_enum_decode_witness :
    dictGetD TRANSPORT_TYPES 99 "UNSPECIFIED" = "UNSPECIFIED"
  ∧ dictGetD COURIER_STATUSES 99 "UNSPECIFIED" = "UNSPECIFIED"
  ∧ dictGetD PACKAGE_STATUSES 99 "UNSPECIFIED" = "UNSPECIFIED"
  ∧ dictGetD PRIORITIES 99 "UNSPECIFIED" = "UNSPECIFIED"
  ∧ (proto_to_courier c1_proto_courier).transport_type = "UNSPECIFIED"
  ∧ (proto_to_courier c1_proto_courier).status = "UNSPECIFIED"
  ∧ (proto_to_delivery_record c1_proto_delivery).status = "UNSPECIFIED"
  ∧ (proto_to_delivery_record c1_proto_delivery).priority = "UNSPECIFIED"
  ∧ OrderStatus.ofInt 99 = .error (toString (99 : Int) ++ " is not a valid OrderStatus") := by
  obtain ⟨h1, h2, h3, h4, h5, h6, h7, h8, h9⟩ := C1_unknown_enum_decode 99
  exact ⟨h1 (by decide), h2 (by decide), h3 (by decide), h4 (by decide),
         h5 c1_proto_courier (by decide), h6 c1_proto_courier (by decide),
         h7 c1_proto_delivery (by decide), h8 c1_proto_delivery (by decide),
         h9 (by decide)⟩

/-- C2 counterexample. The claim asserts that a lookup whose transport
succeeds returns the translated domain object. On a successful `Get` response
whose order carries the unmapped status integer 7, `get_order` instead
raises `ValueError` out of `_proto_to_order` (the except clause only catches
`grpc.RpcError`), so it neither returns a domain object nor raises
`OmsServiceError`. -/
theorem C2_counterexample :
    get_order true (OmsClient_init none) "ord-7"
      (.ok ⟨{ id := "ord-7", customer_id := "cust-1", items := [], status := 7,
              created_at := none, updated_at := none, delivery_info := none }⟩)
      = Except.error (OmsError.valueError "7 is not a valid OrderStatus") := by
  rfl

/-- C2 (amended): for `get_courier` and `get_order`, a `NOT_FOUND` transport
report returns `None` without raising; any other transport failure raises the
client's service error kind; a successful transport returns the translated
domain object — unconditionally for `get_courier`, and for `get_order`
provided the response order translates (a wire status outside the mapped
values makes `get_order` raise `ValueError` instead). -/
theorem C2_lookup_by_id (cd : DeliveryClientState) (co : OmsClientState)
    (cid oid msg : String) (inc : Bool) (code : GrpcCode)
    (respC : GetCourierResponse) (respO : GetOrderResponse) (ord : Order) :
    get_courier true cd cid inc (.rpcErr .notFound msg) = .ok (delivery_ensured cd, none)
  ∧ (code ≠ .notFound →
      get_courier true cd cid inc (.rpcErr code msg)
        = .error (.serviceError ("Failed to get courier: " ++ msg)))
  ∧ get_courier true cd cid inc (.ok respC)
      = .ok (delivery_ensured cd, some (proto_to_courier respC.courier))
  ∧ get_order true co oid (.rpcErr .notFound msg) = .ok (oms_ensured co, none)
  ∧ (code ≠ .notFound →
      get_order true co oid (.rpcErr code msg)
        = .error (.serviceError ("Failed to get order: " ++ msg)))
  ∧ (proto_to_order respO.order = .ok ord →
      get_order true co oid (.ok respO) = .ok (oms_ensured co, some ord)) := by
  refine ⟨?_, ?_, ?_, ?_, ?_, ?_⟩
  · simp only [get_courier, ensure_connected_true]; rfl
  · intro h
    cases code <;>
      first
      | exact absurd rfl h
      | (simp only [get_courier, ensure_connected_true]; rfl)
  · simp only [get_courier, ensure_connected_true]; rfl
  · simp only [get_order, ensure_oms_connected_true]; rfl
  · intro h
    cases code <;>
      first
      | exact absurd rfl h
      | (simp only [get_order, ensure_oms_connected_true]; rfl)
  · intro h
    simp only [get_order, ensure_oms_connected_true, h]; rfl

/-- A well-formed wire order (status 1 = PENDING) for the C2 witness. -/
def c2_proto_order : ProtoOrder :=
  { id := "o-1", customer_id := "cust-1",
    items := [⟨"g-1", 2, ⟨[1, 9], [9, 9]⟩⟩],
    status := 1, created_at := none, updated_at := none, delivery_info := none }

/-- The domain order `_proto_to_order` produces from `c2_proto_order`. -/
def c2_order : Order :=
  { order_id := "o-1", customer_id := "cust-1",
    items := [⟨"g-1", 2, ⟨1999, 2⟩⟩],
    status := .PENDING, created_at := none, updated_at := none,
    delivery_info := none }

/-- C2 witness: the non-NOT_FOUND failure branch and the successful branch
evaluated at concrete inputs. -/
theorem C2_lookup_by_id_witness :
    get_courier true (DeliveryClient_init none none) "c-1" false
      (.rpcErr .internal "boom")
      = .error (.serviceError ("Failed to get courier: " ++ "boom"))
  ∧ get_order true (OmsClient_init none) "o-1" (.ok ⟨c2_proto_order⟩)
      = .ok (oms_ensured (OmsClient_init none), some c2_order) := by
  obtain ⟨h1, h2, h3, h4, h5, h6⟩ :=
    C2_lookup_by_id (DeliveryClient_init none none) (OmsClient_init none)
      "c-1" "o-1" "boom" false GrpcCode.internal ⟨c1_proto_courier⟩
      ⟨c2_proto_order⟩ c2_order
  exact ⟨h2 (by decide), h6 (by rfl)⟩

/-- Registry state after a first plain `get_delivery_client()` access: the
singleton holds object 0. -/
def c3_registry_after_first : DeliveryRegistry :=
  (get_delivery_client none delivery_registry_init).1

/-- Registry state after `get_delivery_client().close()`. -/
def c3_registry_after_close : DeliveryRegistry :=
  delivery_registry_close_singleton c3_registry_after_first

/-- C3 counterexample. The claim asserts that closing the registry-provided
client clears the process-wide singleton so the next access constructs a
fresh client. In the source nothing ever resets the module-level `_client`:
after close the singleton still holds the same object (identity 0), the next
plain access returns that same object — with its channel closed — and leaves
the registry untouched, instead of constructing a fresh instance. -/
theorem C3_counterexample :
    (get_delivery_client none delivery_registry_init).2.1 = 0
  ∧ c3_registry_after_close.singleton.isSome = true
  ∧ (get_delivery_client none c3_registry_after_close).2.1 = 0
  ∧ (get_delivery_client none c3_registry_after_close).1 = c3_registry_after_close
  ∧ ((get_delivery_client none c3_registry_after_close).2.2).channel = none := by
  exact ⟨rfl, rfl, rfl, rfl, rfl⟩

/-- C3 (amended): an explicit close of the registry-provided client releases
the connection (the client's channel and stub are reset) but does not clear
the registry singleton: the next registry access returns the very same client
object, which then re-establishes its connection lazily on its next use.
Stated for both `get_delivery_client` and `get_oms_client`. -/
theorem C3_close_keeps_singleton (r : DeliveryRegistry) (ro : OmsRegistry)
    (oid noid : Nat) (c : DeliveryClientState) (co : OmsClientState)
    (h : r.singleton = some (oid, c)) (ho : ro.singleton = some (noid, co)) :
    (delivery_registry_close_singleton r).singleton = some (oid, c.close)
  ∧ c.close.channel = none
  ∧ get_delivery_client none (delivery_registry_close_singleton r)
      = (delivery_registry_close_singleton r, oid, c.close)
  ∧ ensure_connected true c.close
      = .ok { c.close with channel := some c.close.host, stub := true }
  ∧ (oms_registry_close_singleton ro).singleton = some (noid, co.close)
  ∧ co.close.channel = none
  ∧ get_oms_client (oms_registry_close_singleton ro)
      = (oms_registry_close_singleton ro, noid, co.close)
  ∧ ensure_oms_connected true co.close
      = .ok { co.close with channel := some co.close.host, stub := true } := by
  have hclose : c.close.channel = none := by
    unfold DeliveryClientState.close
    split <;> simp_all
  have hoclose : co.close.channel = none := by
    unfold OmsClientState.close
    split <;> simp_all
  have hr : delivery_registry_close_singleton r
      = { r with singleton := some (oid, c.close) } := by
    unfold delivery_registry_close_singleton
    rw [h]
  have hro : oms_registry_close_singleton ro
      = { ro with singleton := some (noid, co.close) } := by
    unfold oms_registry_close_singleton
    rw [ho]
  refine ⟨by rw [hr], hclose, ?_, ?_, by rw [hro], hoclose, ?_, ?_⟩
  · rw [hr]
    simp [get_delivery_client, pyTruthyOptStr]
  · unfold ensure_connected
    rw [hclose]
    rfl
  · rw [hro]
    simp [get_oms_client]
  · unfold ensure_oms_connected
    rw [hoclose]
    rfl

/-- A delivery registry whose singleton holds a connected client, and an OMS
registry likewise, for the C3 witness. -/
def c3_connected_registry : DeliveryRegistry :=
  ⟨6, some (5, { host := "h:1", channel := some "h:1", stub := true, auth_token := none })⟩

/-- OMS counterpart of `c3_connected_registry`. -/
def c3_connected_oms_registry : OmsRegistry :=
  ⟨4, some (3, { host := "h:2", channel := some "h:2", stub := true })⟩

/-- C3 witness: the amended statement evaluated on concrete registries whose
singletons hold connected clients. -/
theorem C3_close_keeps_singleton_witness :
    (delivery_registry_close_singleton c3_connected_registry).singleton
      = some (5, { host := "h:1", channel := none, stub := false, auth_token := none })
  ∧ get_delivery_client none (delivery_registry_close_singleton c3_connected_registry)
      = (delivery_registry_close_singleton c3_connected_registry, 5,
         { host := "h:1", channel := none, stub := false, auth_token := none })
  ∧ get_oms_client (oms_registry_close_singleton c3_connected_oms_registry)
      = (oms_registry_close_singleton c3_connected_oms_registry, 3,
         { host := "h:2", channel := none, stub := false }) := by
  obtain ⟨h1, h2, h3, h4, h5, h6, h7, h8⟩ :=
    C3_close_keeps_singleton c3_connected_registry c3_connected_oms_registry
      5 3 { host := "h:1", channel := some "h:1", stub := true, auth_token := none }
      { host := "h:2", channel := some "h:2", stub := true } rfl rfl
  exact ⟨h1, h3, h7⟩

/-- C4: `update_contact_info` with only `phone` set builds a wire request on
which the `email` field (and `push_token`) is absent, and a field-presence
patch backend applying that request leaves an unrelated stored email (and
push token) unchanged. -/
theorem C4_partial_update_omits_unset (c : DeliveryClientState)
    (courier_id phone : String) (stored : StoredContactInfo) :
    (update_contact_info_call c courier_id (some phone) none none).1.email = none
  ∧ (update_contact_info_call c courier_id (some phone) none none).1.push_token = none
  ∧ (apply_contact_patch stored
      (update_contact_info_call c courier_id (some phone) none none).1).email
      = stored.email
  ∧ (apply_contact_patch stored
      (update_contact_info_call c courier_id (some phone) none none).1).push_token
      = stored.push_token := by
  refine ⟨rfl, rfl, rfl, rfl⟩

/-- C5 counterexample. The claim asserts `total_pages == 1` whenever
`total_count == 0`. The client echoes response pagination metadata verbatim
when it is present: a `GetCourierPool` response reporting `total_count = 0`
together with pagination metadata carrying `total_pages = 0` yields a result
with `total_count = 0` and `total_pages = 0`, not 1. -/
theorem C5_counterexample :
    (get_courier_pool true (DeliveryClient_init none none) 1 20
        (.ok { couriers := [], total_count := 0,
               pagination := some ⟨1, 20, 0⟩ })).map
      (fun x => (x.2.total_count, x.2.total_pages))
      = .ok ((0 : Int), (0 : Int)) := by
  rfl

/-- C5 (amended): for `get_courier_pool` and `list_orders`, when the response
omits pagination metadata the result's `current_page` and `page_size` equal
the request's `page` and `page_size` and `total_pages` equals 1; when the
response carries pagination metadata, `current_page`, `page_size` and
`total_pages` echo that metadata verbatim (so `total_count = 0` does not
force `total_pages = 1`). -/
theorem C5_pagination_echo (cd : DeliveryClientState) (co : OmsClientState)
    (page page_size : Int) (respP : GetCourierPoolResponse)
    (respL : ListOrdersResponse) (orders : List Order) (p : ProtoPagination) :
    (respP.pagination = none →
      get_courier_pool true cd page page_size (.ok respP)
        = .ok (delivery_ensured cd,
            { couriers := respP.couriers.map proto_to_courier
              total_count := respP.total_count
              current_page := page
              page_size := page_size
              total_pages := 1 }))
  ∧ (respP.pagination = some p →
      get_courier_pool true cd page page_size (.ok respP)
        = .ok (delivery_ensured cd,
            { couriers := respP.couriers.map proto_to_courier
              total_count := respP.total_count
              current_page := p.current_page
              page_size := p.page_size
              total_pages := p.total_pages }))
  ∧ (respL.pagination = none → respL.orders.mapM proto_to_order = .ok orders →
      list_orders true co page page_size (.ok respL)
        = .ok (oms_ensured co,
            { orders := orders
              total_count := respL.total_count
              current_page := page
              page_size := page_size
              total_pages := 1 }))
  ∧ (respL.pagination = some p → respL.orders.mapM proto_to_order = .ok orders →
      list_orders true co page page_size (.ok respL)
        = .ok (oms_ensured co,
            { orders := orders
              total_count := respL.total_count
              current_page := p.current_page
              page_size := p.page_size
              total_pages := p.total_pages })) := by
  refine ⟨?_, ?_, ?_, ?_⟩
  · intro hp
    simp only [get_courier_pool, ensure_connected_true, hp]
    rfl
  · intro hp
    simp only [get_courier_pool, ensure_connected_true, hp]
    rfl
  · intro hp ho
    simp only [list_orders, ensure_oms_connected_true, hp, ho]
    rfl
  · intro hp ho
    simp only [list_orders, ensure_oms_connected_true, hp, ho]
    rfl

/-- C5 witness: both shapes at concrete responses — one response without
pagination metadata (fields echo the request, `total_pages = 1`), one with
metadata (fields echo the response). -/
theorem C5_pagination_echo_witness :
    get_courier_pool true (DeliveryClient_init none none) 2 50
      (.ok { couriers := [], total_count := 0, pagination := none })
      = .ok (delivery_ensured (DeliveryClient_init none none),
          { couriers := [], total_count := 0, current_page := 2,
            page_size := 50, total_pages := 1 })
  ∧ list_orders true (OmsClient_init none) 2 50
      (.ok { orders := [c2_proto_order], total_count := 7,
             pagination := some ⟨3, 10, 9⟩ })
      = .ok (oms_ensured (OmsClient_init none),
          { orders := [c2_order], total_count := 7, current_page := 3,
            page_size := 10, total_pages := 9 }) := by
  obtain ⟨h1, h2, h3, h4⟩ :=
    C5_pagination_echo (DeliveryClient_init none none) (OmsClient_init none)
      2 50 { couriers := [], total_count := 0, pagination := none }
      { orders := [c2_proto_order], total_count := 7, pagination := some ⟨3, 10, 9⟩ }
      [c2_order] ⟨3, 10, 9⟩
  exact ⟨h1 rfl, h4 rfl (by rfl)⟩

/-- C6: `close()` is idempotent — closing an already-closed client is a
no-op (and, being a total function of the state, cannot raise) — and an
operation invoked after close reconnects lazily through `_ensure_connected`
instead of failing, for both clients. -/
theorem C6_close_idempotent_lazy_reconnect (c : DeliveryClientState)
    (co : OmsClientState) (cid : String) (inc : Bool)
    (resp : GetCourierResponse) :
    DeliveryClientState.close (DeliveryClientState.close c) = DeliveryClientState.close c
  ∧ (DeliveryClientState.close c).channel = none
  ∧ ensure_connected true (DeliveryClientState.close c)
      = .ok { DeliveryClientState.close c with
              channel := some (DeliveryClientState.close c).host, stub := true }
  ∧ get_courier true (DeliveryClientState.close c) cid inc (.ok resp)
      = .ok ({ DeliveryClientState.close c with
               channel := some (DeliveryClientState.close c).host, stub := true },
             some (proto_to_courier resp.courier))
  ∧ OmsClientState.close (OmsClientState.close co) = OmsClientState.close co
  ∧ (OmsClientState.close co).channel = none
  ∧ ensure_oms_connected true (OmsClientState.close co)
      = .ok { OmsClientState.close co with
              channel := some (OmsClientState.close co).host, stub := true } := by
  have hch : (DeliveryClientState.close c).channel = none := by
    unfold DeliveryClientState.close
    split <;> simp_all
  have hoch : (OmsClientState.close co).channel = none := by
    unfold OmsClientState.close
    split <;> simp_all
  have hens : ensure_connected true (DeliveryClientState.close c)
      = .ok { DeliveryClientState.close c with
              channel := some (DeliveryClientState.close c).host, stub := true } := by
    unfold ensure_connected
    rw [hch]
    rfl
  refine ⟨?_, hch, hens, ?_, ?_, hoch, ?_⟩
  · unfold DeliveryClientState.close
    split <;> simp_all
  · simp only [get_courier, hens]
    rfl
  · unfold OmsClientState.close
    split <;> simp_all
  · unfold ensure_oms_connected
    rw [hoch]
    rfl

/-- C7: a truthy auth token makes `get_delivery_client` bypass the singleton
(the registry is left untouched) and construct a fresh, unconnected client
carrying the token, and every one of the ten delivery operations attaches the
`authorization: Bearer <token>` metadata entry to its stub invocation
whenever the client state carries that token. -/
theorem C7_auth_token_bypass_and_metadata (r : DeliveryRegistry) (t : String)
    (ht : t ≠ "") :
    (get_delivery_client (some t) r).1.singleton = r.singleton
  ∧ (get_delivery_client (some t) r).2.2 = DeliveryClient_init none (some t)
  ∧ (get_delivery_client (some t) r).2.2.auth_token = some t
  ∧ (get_delivery_client (some t) r).2.2.channel = none
  ∧ (∀ c : DeliveryClientState, c.auth_token = some t →
      get_metadata c = [("authorization", "Bearer " ++ t)])
  ∧ (∀ c cid inc, c.auth_token = some t →
      (get_courier_call c cid inc).2 = [("authorization", "Bearer " ++ t)])
  ∧ (∀ c cid lim, c.auth_token = some t →
      (get_courier_deliveries_call c cid lim).2 = [("authorization", "Bearer " ++ t)])
  ∧ (∀ c sf tf zf ao il pg ps, c.auth_token = some t →
      (get_courier_pool_call c sf tf zf ao il pg ps).2
        = [("authorization", "Bearer " ++ t)])
  ∧ (∀ c nm ph em tt md wz wh pt, c.auth_token = some t →
      (register_courier_call c nm ph em tt md wz wh pt).2
        = [("authorization", "Bearer " ++ t)])
  ∧ (∀ c cid, c.auth_token = some t →
      (activate_courier_call c cid).2 = [("authorization", "Bearer " ++ t)])
  ∧ (∀ c cid rs, c.auth_token = some t →
      (deactivate_courier_call c cid rs).2 = [("authorization", "Bearer " ++ t)])
  ∧ (∀ c cid rs, c.auth_token = some t →
      (archive_courier_call c cid rs).2 = [("authorization", "Bearer " ++ t)])
  ∧ (∀ c cid ph em pt, c.auth_token = some t →
      (update_contact_info_call c cid ph em pt).2 = [("authorization", "Bearer " ++ t)])
  ∧ (∀ c cid wh wz md, c.auth_token = some t →
      (update_work_schedule_call c cid wh wz md).2 = [("authorization", "Bearer " ++ t)])
  ∧ (∀ c cid tt, c.auth_token = some t →
      (change_transport_type_call c cid tt).2 = [("authorization", "Bearer " ++ t)]) := by
  have hmeta : ∀ c : DeliveryClientState, c.auth_token = some t →
      get_metadata c = [("authorization", "Bearer " ++ t)] := by
    intro c hc
    simp [get_metadata, hc, pyTruthyOptStr, pyTruthyStr, ht]
  refine ⟨?_, ?_, ?_, ?_, hmeta, ?_, ?_, ?_, ?_, ?_, ?_, ?_, ?_, ?_, ?_⟩
  · simp [get_delivery_client, pyTruthyOptStr, pyTruthyStr, ht]
  · simp [get_delivery_client, pyTruthyOptStr, pyTruthyStr, ht]
  · simp [get_delivery_client, pyTruthyOptStr, pyTruthyStr, ht, DeliveryClient_init]
  · simp [get_delivery_client, pyTruthyOptStr, pyTruthyStr, ht, DeliveryClient_init]
  · intro c cid inc hc; exact hmeta c hc
  · intro c cid lim hc; exact hmeta c hc
  · intro c sf tf zf ao il pg ps hc; exact hmeta c hc
  · intro c nm ph em tt md wz wh pt hc; exact hmeta c hc
  · intro c cid hc; exact hmeta c hc
  · intro c cid rs hc; exact hmeta c hc
  · intro c cid rs hc; exact hmeta c hc
  · intro c cid ph em pt hc; exact hmeta c hc
  · intro c cid wh wz md hc; exact hmeta c hc
  · intro c cid tt hc; exact hmeta c hc

/-- The fresh request-scoped client `get_delivery_client("tok123", ...)`
constructs, for the C7 witness. -/
def c7_token_client : DeliveryClientState := DeliveryClient_init none (some "tok123")

/-- C7 witness: a concrete token on a registry that already holds a
singleton — the singleton survives, the returned client is fresh and carries
the token, and representative operations attach the Bearer metadata. -/
theorem C7_auth_token_bypass_and_metadata_witness :
    (get_delivery_client (some "tok123") c3_connected_registry).1.singleton
      = c3_connected_registry.singleton
  ∧ (get_delivery_client (some "tok123") c3_connected_registry).2.2
      = c7_token_client
  ∧ (get_courier_call c7_token_client "c-1" false).2
      = [("authorization", "Bearer " ++ "tok123")]
  ∧ (update_contact_info_call c7_token_client "c-1" (some "+49") none none).2
      = [("authorization", "Bearer " ++ "tok123")]
  ∧ (change_transport_type_call c7_token_client "c-1" "CAR").2
      = [("authorization", "Bearer " ++ "tok123")] := by
  obtain ⟨h1, h2, h3, h4, h5, h6, h7, h8, h9, h10, h11, h12, h13, h14, h15⟩ :=
    C7_auth_token_bypass_and_metadata c3_connected_registry "tok123" (by decide)
  exact ⟨h1, h2, h6 c7_token_client "c-1" false rfl,
         h13 c7_token_client "c-1" (some "+49") none none rfl,
         h15 c7_token_client "c-1" "CAR" rfl⟩

/-- C8: every order item's wire monetary value is converted through
`Decimal(str(price))` into an exact scaled-integer decimal: its rational
value is exactly the printed literal's integer part plus fractional part
over the matching power of ten, the stored representation satisfies
`value * 10 ^ scale = digits` (an exact decimal, with no binary floating
point anywhere in the domain object), and every order produced by
`_proto_to_order` — hence by `get_order` and `list_orders` — builds its
items through exactly this conversion. -/
theorem C8_price_exact_decimal (it : ProtoOrderItem) (o : ProtoOrder)
    (ord : Order) (h : proto_to_order o = .ok ord) :
    (proto_to_order_item it).price.toRat
      = (digitsToNat it.price.int_digits : Rat)
        + (digitsToNat it.price.frac_digits : Rat)
            / (10 : Rat) ^ it.price.frac_digits.length
  ∧ (proto_to_order_item it).price.toRat
        * (10 : Rat) ^ (proto_to_order_item it).price.scale
      = ((proto_to_order_item it).price.digitsVal : Rat)
  ∧ ord.items = o.items.map proto_to_order_item := by
  refine ⟨Decimal_of_str_exact it.price, ?_, ?_⟩
  · have hpow : ((10 : Rat) ^ (proto_to_order_item it).price.scale) ≠ 0 := by
      positivity
    unfold PyDecimal.toRat
    field_simp
  · unfold proto_to_order at h
    cases hs : OrderStatus.ofInt o.status with
    | error m => rw [hs] at h; exact Except.noConfusion h
    | ok s =>
        rw [hs] at h
        have h2 : Except.ok (ε := String)
            { order_id := o.id
              customer_id := o.customer_id
              items := o.items.map proto_to_order_item
              status := s
              created_at := o.created_at.map ProtoTimestamp.ToDatetime
              updated_at := o.updated_at.map ProtoTimestamp.ToDatetime
              delivery_info := o.delivery_info.map proto_to_delivery_info }
            = Except.ok ord := h
        cases h2
        rfl

/-- C8 witness: the wire literal 19.99 becomes the exact decimal 1999/100. -/
theorem C8_price_exact_decimal_witness :
    (proto_to_order_item ⟨"g-1", 2, ⟨[1, 9], [9, 9]⟩⟩).price.toRat
      = (digitsToNat [1, 9] : Rat) + (digitsToNat [9, 9] : Rat) / (10 : Rat) ^ 2
  ∧ (proto_to_order_item ⟨"g-1", 2, ⟨[1, 9], [9, 9]⟩⟩).price.toRat * (10 : Rat) ^ 2
      = (1999 : Rat)
  ∧ c2_order.items = c2_proto_order.items.map proto_to_order_item := by
  obtain ⟨h1, h2, h3⟩ :=
    C8_price_exact_decimal ⟨"g-1", 2, ⟨[1, 9], [9, 9]⟩⟩ c2_proto_order c2_order
      (by rfl)
  exact ⟨h1, h2, h3⟩

/-- C9: `cancel_order` returns `True` on success, raises the distinct
`OrderNotFoundError` when the backend reports `NOT_FOUND`, raises the
generic `OmsServiceError` on every other transport failure, and the two
error kinds are distinguishable. -/
theorem C9_cancel_order_taxonomy (c : OmsClientState) (oid msg : String)
    (code : GrpcCode) :
    cancel_order true c oid (.ok ()) = .ok (oms_ensured c, true)
  ∧ cancel_order true c oid (.rpcErr .notFound msg)
      = .error (.orderNotFound ("Order not found: " ++ oid))
  ∧ (code ≠ .notFound →
      cancel_order true c oid (.rpcErr code msg)
        = .error (.serviceError ("Failed to cancel order: " ++ msg)))
  ∧ (∀ m m' : String, OmsError.orderNotFound m ≠ OmsError.serviceError m') := by
  refine ⟨?_, ?_, ?_, ?_⟩
  · simp only [cancel_order, ensure_oms_connected_true]; rfl
  · simp only [cancel_order, ensure_oms_connected_true]; rfl
  · intro h
    cases code <;>
      first
      | exact absurd rfl h
      | (simp only [cancel_order, ensure_oms_connected_true]; rfl)
  · intro m m' hmm
    cases hmm

/-- C9 witness: the taxonomy at concrete inputs, the failure branch at the
non-NOT_FOUND code `UNAVAILABLE`. -/
theorem C9_cancel_order_taxonomy_witness :
    cancel_order true (OmsClient_init none) "o-9" (.ok ())
      = .ok (oms_ensured (OmsClient_init none), true)
  ∧ cancel_order true (OmsClient_init none) "o-9" (.rpcErr .notFound "gone")
      = .error (.orderNotFound ("Order not found: " ++ "o-9"))
  ∧ cancel_order true (OmsClient_init none) "o-9" (.rpcErr .unavailable "down")
      = .error (.serviceError ("Failed to cancel order: " ++ "down")) := by
  obtain ⟨h1, h2, h3, h4⟩ :=
    C9_cancel_order_taxonomy (OmsClient_init none) "o-9" "down" GrpcCode.unavailable
  exact ⟨h1, h2, h3 (by decide)⟩

/-- C10: when the backend reports `NOT_FOUND`, `get_courier_deliveries`
returns the successful empty result (`deliveries = []`, `total_count = 0`)
rather than raising or returning an absent value, and that outcome is equal
to the one produced by a successful response carrying no deliveries — the
two cases are indistinguishable at this interface. -/
theorem C10_deliveries_not_found_empty (c : DeliveryClientState)
    (cid msg : String) (lim : Int) :
    get_courier_deliveries true c cid lim (.rpcErr .notFound msg)
      = .ok (delivery_ensured c, { deliveries := [], total_count := 0 })
  ∧ get_courier_deliveries true c cid lim (.ok ⟨[], 0⟩)
      = get_courier_deliveries true c cid lim (.rpcErr .notFound msg) := by
  refine ⟨?_, ?_⟩
  · simp only [get_courier_deliveries, ensure_connected_true]; rfl
  · simp only [get_courier_deliveries, ensure_connected_true]; rfl

end Shop
